import Mathlib

/-!
Verification development for the drone autoscaler command.

The Go sources embedded here are `cmd/drone-autoscaler/main.go` (startup
wiring: provider selection, decorator composition, route registration and
the scaler goroutine) and `config/config.go` (the configuration structure
with its default tags).  The scaler decision loop, the store and the HTTP
handler bodies live in packages outside the given sources; where a claim
needs them they are modelled from the specification and marked as such.
-/

namespace Autoscaler

/-- Go `time.Duration`: a tick count in nanoseconds. -/
abbrev Duration := Nat

/-- Duration literal `"<n>m"` of the configuration default tags. -/
def minutes (n : Nat) : Duration := n * 60 * 1000000000

/-! ## Configuration (config/config.go)

Each anonymous nested struct of the Go `Config` becomes a named Lean
structure; field names follow the Go source. -/

structure SlackSection where
  Webhook : String
deriving DecidableEq

structure LogsSection where
  Color : Bool
  Debug : Bool
  Pretty : Bool
deriving DecidableEq

structure PoolSection where
  Min : Int
  Max : Int
  MinAge : Duration
deriving DecidableEq

structure ServerSection where
  Host : String
  Proto : String
  Token : String
deriving DecidableEq

structure AgentSection where
  Host : String
  Token : String
  Image : String
  Concurrency : Int
deriving DecidableEq

structure HTTPSection where
  Host : String
  Port : String
deriving DecidableEq

structure TLSSection where
  Autocert : Bool
  Cert : String
  Key : String
deriving DecidableEq

structure PrometheusSection where
  Token : String
deriving DecidableEq

structure DatabaseSection where
  Path : String
deriving DecidableEq

structure DigitalOceanSection where
  Token : String
  Image : String
  Region : String
  SSHKey : String
  Size : String
  IPv6 : Bool
  Tags : List String
deriving DecidableEq

structure GoogleSection where
  Zone : String
  MachineType : String
  MachineImage : String
  DiskType : String
  Address : String
  Network : String
  Subnetwork : String
  Preemptible : Bool
  Scopes : String
  DiskSize : Int
  Project : String
  Tags : List String
deriving DecidableEq

/-- `Config` stores the configuration settings (config/config.go). -/
structure Config where
  Interval : Duration
  Slack : SlackSection
  Logs : LogsSection
  Pool : PoolSection
  Server : ServerSection
  Agent : AgentSection
  HTTP : HTTPSection
  TLS : TLSSection
  Prometheus : PrometheusSection
  Database : DatabaseSection
  DigitalOcean : DigitalOceanSection
  Google : GoogleSection
deriving DecidableEq

/-- The configuration produced when no environment overrides are supplied:
each field tagged `default:"..."` in config/config.go takes the tagged
value, every untagged field takes its Go zero value. -/
def defaultConfig : Config where
  Interval := minutes 5
  Slack := { Webhook := "" }
  Logs := { Color := false, Debug := false, Pretty := false }
  Pool := { Min := 2, Max := 4, MinAge := minutes 60 }
  Server := { Host := "", Proto := "", Token := "" }
  Agent := { Host := "", Token := "", Image := "", Concurrency := 0 }
  HTTP := { Host := "", Port := ":8080" }
  TLS := { Autocert := false, Cert := "", Key := "" }
  Prometheus := { Token := "" }
  Database := { Path := "snapshot.db" }
  DigitalOcean :=
    { Token := "", Image := "docker-16-04", Region := "nyc3",
      SSHKey := "", Size := "s-1vcpu-1gb", IPv6 := false, Tags := [] }
  Google :=
    { Zone := "us-central1-a", MachineType := "n1-standard-1",
      MachineImage := "ubuntu-1510-wily-v20151114",
      DiskType := "pd-standard", Address := "", Network := "default",
      Subnetwork := "", Preemptible := false, Scopes := "",
      DiskSize := 0, Project := "", Tags := [] }

/-! ## Provider selection (main.go, setupProvider) -/

/-- Vendor adapters constructed by `setupProvider`.  The only adapter the
source constructs is `digitalocean.FromConfig`; no other vendor branch
exists in `setupProvider`. -/
inductive ProviderKind where
  | digitalocean (c : Config)
deriving DecidableEq

/-- Modelled from the spec: `digitalocean.FromConfig` is the DigitalOcean
vendor adapter constructor (its body is in the drivers package, outside
the given sources); it yields the adapter for the given configuration. -/
def digitaloceanFromConfig (c : Config) : Except String ProviderKind :=
  .ok (.digitalocean c)

/-- `setupProvider` (main.go): a switch whose single case returns the
DigitalOcean adapter when `c.DigitalOcean.Token != ""`, and whose default
returns the error `missing provider configuration`. -/
def setupProvider (c : Config) : Except String ProviderKind :=
  if c.DigitalOcean.Token ≠ "" then
    digitaloceanFromConfig c
  else
    .error "missing provider configuration"

/-! ## Decorator composition (main.go) -/

/-- A provider value as composed in `main`: the vendor adapter possibly
wrapped by decorators, each holding the inner instance it delegates to.
Every constructor inhabits the same type, mirroring that every decorator
implements the `autoscaler.Provider` interface. -/
inductive ProviderChain where
  | base (k : ProviderKind)
  | metricsServerCreate (inner : ProviderChain)
  | metricsServerDelete (inner : ProviderChain)
  | slackNotifier (conf : Config) (inner : ProviderChain)
deriving DecidableEq

/-- A server-store value as composed in `main`: the bolt-backed store
possibly wrapped by the metrics count decorator. -/
inductive RegistryChain where
  | base (path : String)
  | metricsServerCount (inner : RegistryChain)
deriving DecidableEq

/-- The provider decoration sequence of `main`:
`provider = metrics.ServerCreate(provider)`,
`provider = metrics.ServerDelete(provider)`, then
`if conf.Slack.Webhook != "" { provider = slack.New(conf, provider) }`. -/
def decorateProvider (conf : Config) (base : ProviderKind) : ProviderChain :=
  let p := ProviderChain.metricsServerCreate (.base base)
  let p := ProviderChain.metricsServerDelete p
  if conf.Slack.Webhook ≠ "" then .slackNotifier conf p else p

/-- The store decoration sequence of `main`:
`servers := store.NewServerStore(db)` then
`servers = metrics.ServerCount(servers)`. -/
def decorateServers (path : String) : RegistryChain :=
  .metricsServerCount (.base path)

/-- Whether a Slack notification decorator occurs anywhere in the chain. -/
def ProviderChain.hasSlack : ProviderChain → Bool
  | .base _ => false
  | .metricsServerCreate inner => inner.hasSlack
  | .metricsServerDelete inner => inner.hasSlack
  | .slackNotifier _ _ => true

/-- Whether the metrics create decorator occurs anywhere in the chain. -/
def ProviderChain.hasMetricsCreate : ProviderChain → Bool
  | .base _ => false
  | .metricsServerCreate _ => true
  | .metricsServerDelete inner => inner.hasMetricsCreate
  | .slackNotifier _ inner => inner.hasMetricsCreate

/-- Whether the metrics delete decorator occurs anywhere in the chain. -/
def ProviderChain.hasMetricsDelete : ProviderChain → Bool
  | .base _ => false
  | .metricsServerCreate inner => inner.hasMetricsDelete
  | .metricsServerDelete _ => true
  | .slackNotifier _ inner => inner.hasMetricsDelete

/-- The inner instance a decorator node delegates to (none at the base). -/
def ProviderChain.delegate : ProviderChain → Option ProviderChain
  | .base _ => none
  | .metricsServerCreate inner => some inner
  | .metricsServerDelete inner => some inner
  | .slackNotifier _ inner => some inner

/-! ## HTTP routes (main.go) -/

inductive Method where
  | get
  | post
  | delete
deriving DecidableEq

/-- The values of `main` a route handler is constructed over. -/
inductive Dep where
  | servers
  | provider
  | conf
  | client
  | promToken
  | versionInfo
deriving DecidableEq

/-- One registered route: its method, chi pattern, whether it sits behind
the `server.CheckDrone(conf)` middleware, and the handler arguments. -/
structure Route where
  method : Method
  pattern : String
  droneAuth : Bool
  deps : List Dep
deriving DecidableEq

/-- The subroutes registered inside `r.Route("/api", ...)`, with their
patterns relative to the group, before the group is mounted. -/
def apiSubroutes : List Route :=
  [ { method := .get, pattern := "/queue", droneAuth := false,
      deps := [.client] },
    { method := .get, pattern := "/servers", droneAuth := false,
      deps := [.servers] },
    { method := .post, pattern := "/servers", droneAuth := false,
      deps := [.servers, .provider, .conf] },
    { method := .get, pattern := "/servers/{name}", droneAuth := false,
      deps := [.servers] },
    { method := .delete, pattern := "/servers/{name}", droneAuth := false,
      deps := [.servers, .provider] } ]

/-- Mounting the `/api` group: every subroute gains the `/api` pattern
position and the `server.CheckDrone(conf)` middleware installed by
`r.Use` inside the group. -/
def mountAPI (rs : List Route) : List Route :=
  rs.map fun r => { r with pattern := "/api" ++ r.pattern, droneAuth := true }

/-- All routes `main` registers on the chi router, in registration order:
`/metrics`, `/version` and `/healthz` at top level (no CheckDrone), then
the `/api` group. -/
def routes : List Route :=
  [ { method := .get, pattern := "/metrics", droneAuth := false,
      deps := [.promToken] },
    { method := .get, pattern := "/version", droneAuth := false,
      deps := [.versionInfo] },
    { method := .get, pattern := "/healthz", droneAuth := false,
      deps := [] } ]
  ++ mountAPI apiSubroutes

/-! ## Client, startup wiring and goroutines (main.go) -/

/-- The drone client as configured by `setupClient` (main.go): an oauth2
bearer token from `Server.Token` and a URI built from `Server.Proto` and
`Server.Host`. -/
structure DroneClient where
  proto : String
  host : String
  token : String
deriving DecidableEq

/-- `setupClient` (main.go). -/
def setupClient (c : Config) : DroneClient :=
  { proto := c.Server.Proto, host := c.Server.Host, token := c.Server.Token }

/-- The `scaler.Scaler` struct literal `main` builds for the scaling
routine: the drone client, the configuration, the decorated server store
and the decorated provider. -/
structure Scaler where
  Client : DroneClient
  Config : Config
  Servers : RegistryChain
  Provider : ProviderChain
deriving DecidableEq

/-- One `scaler.Start` goroutine as spawned by `g.Go` in `main`: the
`Scaler` value and the tick interval passed alongside it. -/
structure ScalerRoutine where
  scaler : Scaler
  interval : Duration
deriving DecidableEq

/-- Errors that make `main` terminate before serving: a failed provider
setup (`log.Fatal` on `setupProvider` error) or a failed database open
(`store.Must` on `conf.Database.Path`). -/
inductive StartupError where
  | providerConfig (msg : String)
  | registryOpen (path : String)
deriving DecidableEq

/-- The outcome of everything `main` wires up before blocking in
`g.Wait()`: the decorated provider and store, the drone client, the
registered routes and the started scaler routines. -/
structure Wiring where
  provider : ProviderChain
  servers : RegistryChain
  client : DroneClient
  routes : List Route
  scalerRoutines : List ScalerRoutine
deriving DecidableEq

/-- External outcomes `main` cannot decide from configuration alone:
whether opening the bolt database at a given path succeeds. -/
structure Env where
  dbOpens : String → Bool

/-- The startup sequence of `main` (main.go): load configuration is done
by the caller; then `setupProvider` (fatal on error), the provider
decorators, `store.Must(conf.Database.Path)` (fatal on failure, modelled
through `Env.dbOpens`), `store.NewServerStore` with its metrics
decorator, `setupClient`, route registration, and the single
`scaler.Start` goroutine receiving `conf.Interval`. -/
def mainStartup (conf : Config) (env : Env) : Except StartupError Wiring :=
  match setupProvider conf with
  | .error e => .error (.providerConfig e)
  | .ok base =>
    let provider := decorateProvider conf base
    if env.dbOpens conf.Database.Path then
      let servers := decorateServers conf.Database.Path
      let client := setupClient conf
      .ok { provider := provider
            servers := servers
            client := client
            routes := routes
            scalerRoutines :=
              [ { scaler := { Client := client, Config := conf,
                              Servers := servers, Provider := provider },
                  interval := conf.Interval } ] }
    else
      .error (.registryOpen conf.Database.Path)

/-- Whether startup reached `g.Wait()` or terminated fatally. -/
def startupFatal (r : Except StartupError Wiring) : Bool :=
  match r with
  | .ok _ => false
  | .error _ => true

/-! ## Scaler decision step

The scaler package is outside the given sources; the decision arithmetic
below is modelled from the specification. -/

/-- Modelled from the spec: ceiling division `ceil(P / C)` used by the
Target step of the scaler (P pending jobs, C per-agent concurrency). -/
def ceilDiv (p c : Nat) : Nat := (p + c - 1) / c

/-- Modelled from the spec: clamping a value into the pool bounds
`[mn, mx]`. -/
def clampTo (x mn mx : Nat) : Nat := max mn (min x mx)

/-- Modelled from the spec: the per-tick target
`desiredCount = ceil(P / C)` clamped to `[Min, Max]`. -/
def desiredCount (p c mn mx : Nat) : Nat := clampTo (ceilDiv p c) mn mx

/-- The action a tick decides on. -/
inductive ScaleAction where
  | create (n : Nat)
  | destroy (n : Nat)
  | hold
deriving DecidableEq

/-- Modelled from the spec: the Decide step of a tick over the target and
the current active count (age-eligibility filtering of destroy candidates
is not needed by the claims settled here). -/
def decideAction (p c mn mx current : Nat) : ScaleAction :=
  let desired := desiredCount p c mn mx
  if desired > current ∧ current < mx then
    .create (min desired mx - current)
  else if desired < current ∧ current > mn then
    .destroy (current - max desired mn)
  else
    .hold

/-! ## Scaler control loop

`scaler.Start` is outside the given sources; the loop below is modelled
from the specification's error-handling design: a queue-source failure
skips the decision step of the current tick, per-instance provider
failures are recorded as `Error`-state instances, a runtime registry
failure aborts the remaining steps of the tick, and the loop continues
ticking until cancelled. -/

/-- What the external world does at one point of the loop's life: one
tick (with its queue-source outcome, number of per-instance provider
failures, and registry outcome) or the cancellation signal. -/
inductive LoopEvent where
  | tick (queueOk : Bool) (providerFailures : Nat) (registryOk : Bool)
  | cancel
deriving DecidableEq

/-- Bookkeeping the loop accumulates across ticks. -/
structure LoopState where
  errorRecords : Nat
  skippedTicks : Nat
  abortedTicks : Nat
  completedTicks : Nat
deriving DecidableEq

/-- Modelled from the spec: one tick of the scaler.  A queue-source
failure skips the decision (no scaling action); a registry failure aborts
the tick's remaining steps; otherwise each per-instance provider failure
is isolated and recorded as an `Error`-state instance and the tick
completes. -/
def runTick (st : LoopState) (queueOk : Bool) (providerFailures : Nat)
    (registryOk : Bool) : LoopState :=
  if !queueOk then
    { st with skippedTicks := st.skippedTicks + 1 }
  else if !registryOk then
    { st with abortedTicks := st.abortedTicks + 1 }
  else
    { st with errorRecords := st.errorRecords + providerFailures,
              completedTicks := st.completedTicks + 1 }

/-- Modelled from the spec: `scaler.Start` — the control loop driven by
the tick interval, processing events until the cancellation signal,
whereupon it returns to `g.Wait` in `main`.  The error component of its
result type is what would terminate the process through the fatal log in
`main`. -/
def scalerStart (st : LoopState) : List LoopEvent → Except String LoopState
  | [] => .ok st
  | .cancel :: _ => .ok st
  | .tick q p r :: rest => scalerStart (runTick st q p r) rest

/-- The number of ticks the driver issues before the cancellation
signal. -/
def ticksUntilCancel : List LoopEvent → Nat
  | [] => 0
  | .cancel :: _ => 0
  | .tick _ _ _ :: rest => ticksUntilCancel rest + 1

/-- Total ticks a state has accounted for, however they ended. -/
def LoopState.handledTicks (st : LoopState) : Nat :=
  st.skippedTicks + st.abortedTicks + st.completedTicks

/-! ## Concrete values used by witnesses and counterexamples -/

/-- Whether `pre` is a leading segment of `s`, on the character lists. -/
def strHasPrefix (pre s : String) : Bool := pre.data.isPrefixOf s.data

/-- An environment in which every database path opens. -/
def envAlwaysOpens : Env := { dbOpens := fun _ => true }

/-- An environment in which no database path opens. -/
def envNeverOpens : Env := { dbOpens := fun _ => false }

/-- Default configuration with a DigitalOcean token supplied. -/
def doConfig : Config :=
  { defaultConfig with
      DigitalOcean := { defaultConfig.DigitalOcean with Token := "do-token" } }

/-- Default configuration with Google credentials supplied but no
DigitalOcean token. -/
def googleOnlyConfig : Config :=
  { defaultConfig with
      Google := { defaultConfig.Google with
                    Project := "my-project",
                    Scopes := "https://www.googleapis.com/auth/compute" } }

/-- Default configuration with a DigitalOcean token and a Slack webhook. -/
def slackConfig : Config :=
  { doConfig with Slack := { Webhook := "https://hooks.example/T000/B000" } }

/-- The wiring `mainStartup` produces for `doConfig` in `envAlwaysOpens`. -/
def wDO : Wiring :=
  { provider := decorateProvider doConfig (.digitalocean doConfig)
    servers := decorateServers doConfig.Database.Path
    client := setupClient doConfig
    routes := routes
    scalerRoutines :=
      [ { scaler := { Client := setupClient doConfig, Config := doConfig,
                      Servers := decorateServers doConfig.Database.Path,
                      Provider := decorateProvider doConfig (.digitalocean doConfig) },
          interval := doConfig.Interval } ] }

/-! ## Helper lemmas -/

/-- Ceiling division covers the demand: `c * ceil(p / c) ≥ p`. -/
theorem le_mul_ceilDiv (p c : Nat) (hc : 0 < c) : p ≤ c * ceilDiv p c := by
  have h : p ≤ c • (p ⌈/⌉ c) := le_smul_ceilDiv hc
  rw [Nat.ceilDiv_eq_add_pred_div, smul_eq_mul] at h
  exact h

/-- Every tick, however it ends, is accounted for exactly once. -/
theorem runTick_handledTicks (st : LoopState) (q : Bool) (p : Nat) (r : Bool) :
    (runTick st q p r).handledTicks = st.handledTicks + 1 := by
  cases q <;> cases r <;>
    simp [runTick, LoopState.handledTicks] <;> omega

/-! ## Claim theorems -/

/-- Claim C1, counterexample: the claim says `setupProvider` returns a
Google Cloud provider when Google credentials are configured; but on a
configuration with a Google project and scopes set and no DigitalOcean
token, `setupProvider` returns the missing-provider-configuration error —
no Google branch exists in the switch. -/
theorem setupProvider_no_google_branch :
    googleOnlyConfig.Google.Project = "my-project" ∧
    googleOnlyConfig.Google.Scopes ≠ "" ∧
    googleOnlyConfig.DigitalOcean.Token = "" ∧
    setupProvider googleOnlyConfig = .error "missing provider configuration" := by
  refine ⟨rfl, by decide, rfl, rfl⟩

/-- Claim C1, amended: `setupProvider` returns the DigitalOcean provider
when the DigitalOcean token is non-empty, and in every other case —
Google configuration notwithstanding — returns the
missing-provider-configuration error, on which startup fails fatally
before the scaler ever runs. -/
theorem setupProvider_digitalocean_or_fatal (c : Config) (env : Env) :
    (c.DigitalOcean.Token ≠ "" →
      setupProvider c = .ok (.digitalocean c)) ∧
    (c.DigitalOcean.Token = "" →
      setupProvider c = .error "missing provider configuration" ∧
      startupFatal (mainStartup c env) = true) := by
  constructor
  · intro h
    simp [setupProvider, h, digitaloceanFromConfig]
  · intro h
    have h2 : setupProvider c = .error "missing provider configuration" := by
      simp [setupProvider, h]
    refine ⟨h2, ?_⟩
    unfold mainStartup
    rw [h2]
    rfl

/-- Witness for C1's amended theorem at concrete configurations. -/
theorem setupProvider_digitalocean_or_fatal_witness :
    setupProvider doConfig = .ok (.digitalocean doConfig) ∧
    startupFatal (mainStartup googleOnlyConfig envAlwaysOpens) = true :=
  ⟨(setupProvider_digitalocean_or_fatal doConfig envAlwaysOpens).1 (by decide),
   ((setupProvider_digitalocean_or_fatal googleOnlyConfig envAlwaysOpens).2 rfl).2⟩

/-- Claim C2: for pending count `p`, concurrency `c > 0` and bounds
`mn ≤ mx`, the per-tick target `desiredCount` lies in `[mn, mx]`, it is
the clamp of the ceiling `ceil(p / c)` (which covers the demand), and in
the spec's scenario `P=10, C=2, Min=2, Max=4` with 2 active instances the
decision is to create exactly 2 instances. -/
theorem tick_target_clamped (p c mn mx : Nat) (hc : 0 < c) (hb : mn ≤ mx) :
    mn ≤ desiredCount p c mn mx ∧
    desiredCount p c mn mx ≤ mx ∧
    p ≤ c * ceilDiv p c ∧
    decideAction 10 2 2 4 2 = .create 2 := by
  refine ⟨?_, ?_, le_mul_ceilDiv p c hc, by decide⟩
  · show mn ≤ max mn (min (ceilDiv p c) mx)
    exact le_max_left _ _
  · show max mn (min (ceilDiv p c) mx) ≤ mx
    exact max_le hb (min_le_right _ _)

/-- Witness for C2 at the spec's scenario values. -/
theorem tick_target_clamped_witness :
    2 ≤ desiredCount 10 2 2 4 ∧
    desiredCount 10 2 2 4 ≤ 4 ∧
    10 ≤ 2 * ceilDiv 10 2 ∧
    decideAction 10 2 2 4 2 = .create 2 :=
  tick_target_clamped 10 2 2 4 (by decide) (by decide)

/-- Claim C3: the routes registered under `/api` are exactly a GET list
and a GET find-by-name endpoint over the server store, a POST create and
a DELETE delete endpoint over the store and provider, and a GET queue
endpoint over the drone client. -/
theorem api_routes_exact :
    routes.filter (fun r => strHasPrefix "/api" r.pattern) =
      [ { method := .get, pattern := "/api/queue", droneAuth := true,
          deps := [.client] },
        { method := .get, pattern := "/api/servers", droneAuth := true,
          deps := [.servers] },
        { method := .post, pattern := "/api/servers", droneAuth := true,
          deps := [.servers, .provider, .conf] },
        { method := .get, pattern := "/api/servers/{name}", droneAuth := true,
          deps := [.servers] },
        { method := .delete, pattern := "/api/servers/{name}", droneAuth := true,
          deps := [.servers, .provider] } ] := by
  decide

/-- Claim C5: a successful startup spawns exactly one scaler routine, and
it receives the wired client, configuration, decorated store and
decorated provider together with `conf.Interval` (default five minutes)
as the tick period. -/
theorem main_starts_single_scaler (c : Config) (env : Env) (w : Wiring)
    (h : mainStartup c env = .ok w) :
    w.scalerRoutines =
      [ { scaler := { Client := w.client, Config := c,
                      Servers := w.servers, Provider := w.provider },
          interval := c.Interval } ] ∧
    defaultConfig.Interval = minutes 5 := by
  refine ⟨?_, rfl⟩
  unfold mainStartup at h
  cases hp : setupProvider c with
  | error e => rw [hp] at h; exact absurd h (by simp)
  | ok base =>
    rw [hp] at h
    by_cases hd : env.dbOpens c.Database.Path
    · simp only [hd, if_true, Except.ok.injEq] at h
      subst h
      rfl
    · simp only [hd, if_false, Bool.false_eq_true] at h
      exact absurd h (by simp)

/-- Witness for C5 at a concrete configuration and environment. -/
theorem main_starts_single_scaler_witness :
    wDO.scalerRoutines =
      [ { scaler := { Client := wDO.client, Config := doConfig,
                      Servers := wDO.servers, Provider := wDO.provider },
          interval := doConfig.Interval } ] ∧
    defaultConfig.Interval = minutes 5 :=
  main_starts_single_scaler doConfig envAlwaysOpens wDO rfl

/-- Claim C6: when the database at the configured path cannot be opened,
startup is fatal — `mainStartup` never reaches the serving state. -/
theorem registry_open_failure_fatal (c : Config) (env : Env)
    (h : env.dbOpens c.Database.Path = false) :
    startupFatal (mainStartup c env) = true := by
  unfold mainStartup
  cases hp : setupProvider c with
  | error e => rfl
  | ok base => simp [h, startupFatal]

/-- Witness for C6 at a concrete configuration and environment. -/
theorem registry_open_failure_fatal_witness :
    startupFatal (mainStartup doConfig envNeverOpens) = true :=
  registry_open_failure_fatal doConfig envNeverOpens rfl

/-- Claim C7: the metrics create/delete decorators always wrap the
provider and the metrics count decorator always wraps the store, while
the Slack decorator wraps the provider exactly when the webhook is
configured; the composed chains exhibit each decorator delegating to the
inner instance it wraps. -/
theorem instrumentation_decorators (conf : Config) (base : ProviderKind)
    (path : String) :
    (decorateProvider conf base).hasMetricsCreate = true ∧
    (decorateProvider conf base).hasMetricsDelete = true ∧
    ((decorateProvider conf base).hasSlack = true ↔ conf.Slack.Webhook ≠ "") ∧
    (conf.Slack.Webhook ≠ "" →
      decorateProvider conf base =
        .slackNotifier conf
          (.metricsServerDelete (.metricsServerCreate (.base base)))) ∧
    (conf.Slack.Webhook = "" →
      decorateProvider conf base =
        .metricsServerDelete (.metricsServerCreate (.base base))) ∧
    decorateServers path = .metricsServerCount (.base path) := by
  by_cases h : conf.Slack.Webhook = "" <;>
    simp [h, decorateProvider, decorateServers,
          ProviderChain.hasMetricsCreate, ProviderChain.hasMetricsDelete,
          ProviderChain.hasSlack]

/-- Witness for C7 at a configuration with a Slack webhook. -/
theorem instrumentation_decorators_witness :
    decorateProvider slackConfig (.digitalocean slackConfig) =
      .slackNotifier slackConfig
        (.metricsServerDelete
          (.metricsServerCreate (.base (.digitalocean slackConfig)))) :=
  (instrumentation_decorators slackConfig (.digitalocean slackConfig)
    "snapshot.db").2.2.2.1 (by decide)

/-- Claim C8: the scaler loop never crashes on recoverable failures — for
every prior state and every event sequence, however many queue-source
failures, per-instance provider failures and runtime registry failures
its ticks contain, `scalerStart` returns without an error and accounts
for every tick issued before cancellation. -/
theorem scaler_loop_survives_failures (st : LoopState) (evs : List LoopEvent) :
    ∃ st', scalerStart st evs = .ok st' ∧
      st'.handledTicks = st.handledTicks + ticksUntilCancel evs := by
  induction evs generalizing st with
  | nil => exact ⟨st, rfl, by simp [ticksUntilCancel]⟩
  | cons e rest ih =>
    cases e with
    | cancel => exact ⟨st, rfl, by simp [ticksUntilCancel]⟩
    | tick q p r =>
      obtain ⟨st', h1, h2⟩ := ih (runTick st q p r)
      refine ⟨st', h1, ?_⟩
      rw [h2, runTick_handledTicks]
      simp only [ticksUntilCancel]
      omega

/-- Claim C9: with no environment overrides the configuration defaults
are `Interval = 5m`, `Pool.Min = 2`, `Pool.Max = 4`, `Pool.MinAge = 60m`,
`HTTP.Port = ":8080"` and `Database.Path = "snapshot.db"`. -/
theorem config_defaults :
    defaultConfig.Interval = minutes 5 ∧
    defaultConfig.Pool.Min = 2 ∧
    defaultConfig.Pool.Max = 4 ∧
    defaultConfig.Pool.MinAge = minutes 60 ∧
    defaultConfig.HTTP.Port = ":8080" ∧
    defaultConfig.Database.Path = "snapshot.db" :=
  ⟨rfl, rfl, rfl, rfl, rfl, rfl⟩

/-- Claim C10: a route carries the CheckDrone middleware exactly when its
pattern lies under `/api`; `/healthz` and `/version` are served without
authentication and `/metrics` is guarded only by the Prometheus token
handed to its handler. -/
theorem api_auth_boundary :
    (routes.all fun r => r.droneAuth == strHasPrefix "/api" r.pattern) = true ∧
    ({ method := .get, pattern := "/healthz", droneAuth := false,
       deps := [] } : Route) ∈ routes ∧
    ({ method := .get, pattern := "/version", droneAuth := false,
       deps := [.versionInfo] } : Route) ∈ routes ∧
    ({ method := .get, pattern := "/metrics", droneAuth := false,
       deps := [.promToken] } : Route) ∈ routes := by
  decide

end Autoscaler
